import Mathlib

/-!
Verification development for the SLP (RFC 2608) Service Agent core of the
`ola` repository, as exercised by `src/tools/slp/SLPServerSATest.cpp`.

The implementation files (`SLPServer`, `ScopeSet`, `ServiceEntry`,
`URLEntry`, `SLPPacketBuilder`) are not part of the provided sources; only
the SA test is.  Every definition below that embeds one of those missing
components is therefore modelled from the specification and marked
`Modelled from the spec:` in its doc comment.
-/

namespace OlaSlp

/-! ### Error codes (spec §7) -/

def SLP_OK : Nat := 0

def LANGUAGE_NOT_SUPPORTED : Nat := 1

def PARSE_ERROR : Nat := 2

def INVALID_REGISTRATION : Nat := 3

def SCOPE_NOT_SUPPORTED : Nat := 4

/-! ### ASCII helpers for scope normalisation (spec §4.2) -/

/-- ASCII-only lower casing of a single character (spec §4.2: case folding
is ASCII only). -/
def lowerChar (c : Char) : Char :=
  if 'A' ≤ c ∧ c ≤ 'Z' then Char.ofNat (c.toNat + 32) else c

/-- Whitespace trimmed around scope labels. -/
def isSpaceChar (c : Char) : Bool :=
  c = ' ' || c = '\t'

/-- Drop surrounding whitespace from a character list. -/
def trimChars (l : List Char) : List Char :=
  ((l.dropWhile isSpaceChar).reverse.dropWhile isSpaceChar).reverse

/-- Split a character list at commas. -/
def splitCommaAux : List Char → List Char → List (List Char)
  | [], acc => [acc.reverse]
  | c :: rest, acc =>
      if c = ',' then acc.reverse :: splitCommaAux rest []
      else splitCommaAux rest (c :: acc)

/-- Deduplicate a list of strings, keeping the first occurrence of each. -/
def dedupKeepFirst : List String → List String
  | [] => []
  | x :: xs => x :: (dedupKeepFirst xs).filter (fun y => y ≠ x)

/-! ### Scope sets (spec §3, §4.2) -/

/-- Modelled from the spec: `ScopeSet` (missing `tools/slp/ScopeSet.h`).
A set of scope labels; comparison is case-insensitive, realised here by
normalising every label to ASCII lower case at parse time.  Represented as
a duplicate-free list of normalised labels. -/
abbrev ScopeSet := List String

/-- Modelled from the spec: parse a scope set from a comma-separated
string, trimming whitespace and lowercasing (spec §4.2); empty labels are
discarded, so `""` parses to the empty scope set. -/
def ScopeSet.ofString (s : String) : ScopeSet :=
  dedupKeepFirst
    (((splitCommaAux s.data []).map
        (fun cs => String.mk (trimChars (cs.map lowerChar)))).filter
      (fun l => l ≠ ""))

/-- Modelled from the spec: `empty()` test on a scope set. -/
def ScopeSet.isEmptySet (s : ScopeSet) : Bool :=
  match s with
  | [] => true
  | _ :: _ => false

/-- Modelled from the spec: membership of a label in a scope set. -/
def ScopeSet.memScope (s : ScopeSet) (l : String) : Bool :=
  match s with
  | [] => false
  | x :: xs => x = l || ScopeSet.memScope xs l

/-- Modelled from the spec: `a.is_subset_of b` — every label of `a` occurs
in `b`. -/
def ScopeSet.subsetOf (a b : ScopeSet) : Bool :=
  match a with
  | [] => true
  | x :: xs => b.memScope x && ScopeSet.subsetOf xs b

/-- Modelled from the spec: `a.intersects b` — some label of `a` occurs in
`b`. -/
def ScopeSet.intersects (a b : ScopeSet) : Bool :=
  match a with
  | [] => false
  | x :: xs => b.memScope x || ScopeSet.intersects xs b

/-! ### URL entries, service entries, URL parsing (spec §3) -/

/-- Modelled from the spec: `URLEntry` — a service URL with a lifetime in
seconds (missing `tools/slp/URLEntry.h`). -/
structure URLEntry where
  url : String
  lifetime : Nat
  deriving DecidableEq, Repr

/-- Modelled from the spec: `ServiceEntry` — scopes, URL entry and the
monotonic registration time (missing `tools/slp/ServiceEntry.h`). -/
structure ServiceEntry where
  scopes : ScopeSet
  url : URLEntry
  registeredAt : Nat
  deriving DecidableEq, Repr

/-- `startsWithChars p l` — the character list `l` begins with `p`. -/
def startsWithChars : List Char → List Char → Bool
  | [], _ => true
  | _ :: _, [] => false
  | p :: ps, c :: cs => p = c && startsWithChars ps cs

/-- Find the position of the first `://` in a character list, returning
the characters before it and after it. -/
def splitSchemeAux : List Char → List Char → Option (List Char × List Char)
  | [], _ => none
  | ':' :: '/' :: '/' :: rest, acc => some (acc.reverse, rest)
  | c :: rest, acc => splitSchemeAux rest (c :: acc)

/-- Modelled from the spec: extract the service type of a service URL —
the leading token up to the first `://` of a string of the form
`service:<service-type>://<rest>` (spec §3); `none` when the URL is
malformed (no `://`, or the token does not start with `service:`). -/
def parseServiceType (url : String) : Option String :=
  match splitSchemeAux url.data [] with
  | none => none
  | some (t, _) =>
      if startsWithChars "service:".data t then some (String.mk t) else none

/-! ### The registry (spec §4.3) -/

/-- Modelled from the spec: the registry — a table of active service
entries keyed by their URL string. -/
abbrev Registry := List ServiceEntry

/-- Modelled from the spec: `find(service_type, scopes)` — every live
entry whose parsed service type equals `service_type` and whose scopes
intersect `scopes`, in the registry iteration order (spec §4.3). -/
def Registry.find (reg : Registry) (serviceType : String) (scopes : ScopeSet) :
    List URLEntry :=
  (reg.filter (fun e =>
      (parseServiceType e.url.url == some serviceType) &&
        e.scopes.intersects scopes)).map (fun e => e.url)

/-- Modelled from the spec: `sweep(now)` — drop the entries whose
`registered_at + lifetime ≤ now` (spec §4.3). -/
def Registry.sweep (reg : Registry) (now : Nat) : Registry :=
  reg.filter (fun e => now < e.registeredAt + e.url.lifetime)

/-! ### SA configuration (spec §3, §4.5) -/

/-- Modelled from the spec: the startup options handed to the server
(`SLPServer::SLPServerOptions`). -/
structure SLPServerOptions where
  enableDa : Bool
  ipAddress : String
  initialXid : Nat
  scopes : ScopeSet
  slpPort : Nat
  deriving DecidableEq, Repr

/-- Modelled from the spec: the running SA configuration after `init`
validation. -/
structure SAConfig where
  ip : String
  scopes : ScopeSet
  port : Nat
  deriving DecidableEq, Repr

/-- Modelled from the spec: configuration validation at `init` — an empty
configured scope set is substituted by `{"default"}` (spec §4.5). -/
def initConfig (opts : SLPServerOptions) : SAConfig :=
  { ip := opts.ipAddress
    scopes := if opts.scopes.isEmptySet then ScopeSet.ofString "default"
              else opts.scopes
    port := opts.slpPort }

/-- Modelled from the spec and corrected by the test: `RegisterService` —
reject a malformed URL with `PARSE_ERROR`, otherwise insert or replace by
URL string (spec §4.3).  The spec additionally says registration rejects
with `SCOPE_NOT_SUPPORTED` when the entry scopes are not a subset of the
SA configured scopes, but `SLPServerSATest.cpp` lines 205-211 register a
service scoped `one,two` on an SA configured with scope `one` and assert
the result is `SLP_OK` (and later queries find the entry), so the test —
the only repository code available — shows there is no such rejection and
none is modelled.  The `cfg` argument is kept for the interface. -/
def registerService (_cfg : SAConfig) (reg : Registry) (e : ServiceEntry) :
    Registry × Nat :=
  match parseServiceType e.url.url with
  | none => (reg, PARSE_ERROR)
  | some _ =>
      ((reg.filter (fun x => x.url.url ≠ e.url.url)) ++ [e], SLP_OK)

/-- Result of a deregistration (spec §4.3: `{OK, NOT_FOUND}`). -/
inductive DeregStatus where
  | ok
  | notFound
  deriving DecidableEq, Repr

/-- Modelled from the spec: `DeRegisterService` — remove by exact URL
match (spec §4.3). -/
def deRegisterService (reg : Registry) (url : String) :
    Registry × DeregStatus :=
  if reg.any (fun x => x.url.url = url) then
    (reg.filter (fun x => x.url.url ≠ url), DeregStatus.ok)
  else (reg, DeregStatus.notFound)

/-! ### The SA engine (spec §4.4) -/

/-- Modelled from the spec: a decoded inbound `SrvRqst` as the engine sees
it: XID, multicast flag, previous-responder list (IPv4 addresses in dotted
decimal), requested service type and request scope set. -/
structure SrvRqstIn where
  xid : Nat
  multicast : Bool
  prList : List String
  serviceType : String
  scopes : ScopeSet
  deriving DecidableEq, Repr

/-- Modelled from the spec: an outbound datagram produced by the engine,
addressed to the sender of the request.  All replies set `M=0`; the
`mcast` field of the SAAdvert records the multicast flag the builder puts
in the header. -/
inductive OutMsg where
  | srvRply (xid : Nat) (errorCode : Nat) (urls : List URLEntry)
  | saAdvert (xid : Nat) (mcast : Bool) (url : String) (scopes : ScopeSet)
  deriving DecidableEq, Repr

/-- The XID carried by an outbound message. -/
def OutMsg.xidOf : OutMsg → Nat
  | OutMsg.srvRply xid _ _ => xid
  | OutMsg.saAdvert xid _ _ _ => xid

/-- Modelled from the spec: the self URL, derived from the configured IPv4
address as `service:service-agent://<ip>` (spec §4.4). -/
def selfUrl (cfg : SAConfig) : String :=
  "service:service-agent://" ++ cfg.ip

/-- Modelled from the spec: the SrvRqst dispatch of the SA engine
(spec §4.4).  `none` means the request is dropped silently; `some m`
means `m` is sent unicast to the sender. -/
def handleSrvRqst (cfg : SAConfig) (reg : Registry) (r : SrvRqstIn) :
    Option OutMsg :=
  if r.prList.contains cfg.ip then none
  else if r.serviceType = "" then
    if r.multicast then none
    else some (OutMsg.srvRply r.xid PARSE_ERROR [])
  else if r.serviceType = "service:service-agent" then
    if r.scopes.isEmptySet || r.scopes.subsetOf cfg.scopes ||
        r.scopes.intersects cfg.scopes then
      some (OutMsg.saAdvert r.xid false (selfUrl cfg) cfg.scopes)
    else if r.multicast then none
    else some (OutMsg.srvRply r.xid SCOPE_NOT_SUPPORTED [])
  else
    if r.scopes.isEmptySet || !r.scopes.subsetOf cfg.scopes then
      if r.multicast then none
      else some (OutMsg.srvRply r.xid SCOPE_NOT_SUPPORTED [])
    else
      if r.multicast && (reg.find r.serviceType r.scopes).isEmpty then none
      else some (OutMsg.srvRply r.xid SLP_OK (reg.find r.serviceType r.scopes))

/-! ### SA state and event loop (spec §4.4, §5) -/

/-- Modelled from the spec: the long-lived state owned by the SA — its
running configuration and the registry. -/
structure SAState where
  cfg : SAConfig
  reg : Registry
  deriving DecidableEq, Repr

/-- Modelled from the spec: the events the single-threaded SA loop
consumes — inbound SrvRqst datagrams, control-plane registration and
deregistration, and scheduler ticks (spec §4.4, §5). -/
inductive SAEvent where
  | request (r : SrvRqstIn)
  | registerSvc (e : ServiceEntry)
  | deregisterSvc (url : String)
  | tick (now : Nat)
  deriving DecidableEq, Repr

/-- Modelled from the spec: one step of the event loop.  A request is
handled to completion and produces at most one outbound datagram; the
control-plane calls and the sweep tick mutate the registry and produce no
outbound traffic (spec §4.4: a tick generates no outbound traffic). -/
def stepEvent (s : SAState) : SAEvent → SAState × Option OutMsg
  | SAEvent.request r => (s, handleSrvRqst s.cfg s.reg r)
  | SAEvent.registerSvc e =>
      ({ s with reg := (registerService s.cfg s.reg e).1 }, none)
  | SAEvent.deregisterSvc url =>
      ({ s with reg := (deRegisterService s.reg url).1 }, none)
  | SAEvent.tick now => ({ s with reg := s.reg.sweep now }, none)

/-- Modelled from the spec: run the event loop over a list of events in
arrival order, threading the state and collecting the outbound datagram
(or silence) produced by each event. -/
def runEvents (s : SAState) : List SAEvent → SAState × List (Option OutMsg)
  | [] => (s, [])
  | ev :: evs =>
      let p := stepEvent s ev
      let q := runEvents p.1 evs
      (q.1, p.2 :: q.2)

/-! ### Wire codec (spec §4.1)

Modelled from the spec: the `SLPPacketBuilder` / packet parser sources are
missing; the byte layout follows §4.1.  Bytes are `Nat`s; well-formedness
(`wfMessage`) constrains every byte to `< 256` and every length-prefixed
field to fit its prefix.  The header is the 14-byte SLP v2 header (the
lang-tag length is the u16 of the 14-byte layout pictured in §4.1; §4.2's
passing mention of a u8 prefix is inconsistent with that 14-byte count). -/

/-- Big-endian u16 as two bytes. -/
def encU16 (n : Nat) : List Nat := [n / 256, n % 256]

/-- Big-endian u24 as three bytes. -/
def encU24 (n : Nat) : List Nat := [n / 65536, n / 256 % 256, n % 256]

/-- A u16-length-prefixed string field (spec §4.1). -/
def encStr (s : List Nat) : List Nat := encU16 s.length ++ s

/-- Read a big-endian u16. -/
def readU16 : List Nat → Option (Nat × List Nat)
  | a :: b :: r => some (a * 256 + b, r)
  | _ => none

/-- Read a big-endian u24. -/
def readU24 : List Nat → Option (Nat × List Nat)
  | a :: b :: c :: r => some (a * 65536 + b * 256 + c, r)
  | _ => none

/-- Read a single byte. -/
def readByte : List Nat → Option (Nat × List Nat)
  | a :: r => some (a, r)
  | _ => none

/-- Read `n` raw bytes, failing on truncation. -/
def readBytes (n : Nat) (l : List Nat) : Option (List Nat × List Nat) :=
  if n ≤ l.length then some (l.take n, l.drop n) else none

/-- Read a u16-length-prefixed string field. -/
def readStr (l : List Nat) : Option (List Nat × List Nat) :=
  match readU16 l with
  | none => none
  | some (n, r) => readBytes n r

/-- Modelled from the spec: the common SLP v2 header data carried by every
message — the multicast flag, the XID and the language tag (spec §4.1).
Version is fixed at 2; the length, flags reserved bits and next-extension
offset are produced by the encoder. -/
structure SLPHeader where
  multicast : Bool
  xid : Nat
  lang : List Nat
  deriving DecidableEq, Repr

/-- Modelled from the spec: a wire URL entry —
`<u8 reserved=0><u16 lifetime><u16 urllen><url bytes><u8 num-auths=0>`
(spec §4.1). -/
structure WireURLEntry where
  lifetime : Nat
  url : List Nat
  deriving DecidableEq, Repr

/-- Modelled from the spec: the messages of §4.1 — the common header plus
the `SrvRqst`, `SrvRply` and `SAAdvert` bodies. -/
inductive SLPMessage where
  | srvRqst (hdr : SLPHeader)
      (prList serviceType scopeList predicate spi : List Nat)
  | srvRply (hdr : SLPHeader) (errorCode : Nat) (urls : List WireURLEntry)
  | saAdvert (hdr : SLPHeader) (url scopes attrs : List Nat)
  deriving DecidableEq, Repr

/-- Function-ID of a message: `SrvRqst=1`, `SrvRply=2`, `SAAdvert=11`. -/
def SLPMessage.fnId : SLPMessage → Nat
  | SLPMessage.srvRqst _ _ _ _ _ _ => 1
  | SLPMessage.srvRply _ _ _ => 2
  | SLPMessage.saAdvert _ _ _ _ => 11

/-- The header of a message. -/
def SLPMessage.hdrOf : SLPMessage → SLPHeader
  | SLPMessage.srvRqst h _ _ _ _ _ => h
  | SLPMessage.srvRply h _ _ => h
  | SLPMessage.saAdvert h _ _ _ => h

/-- The flags u16: the multicast flag is bit `0x2000` (spec §4.1, the `R`
request-multicast bit); all other bits are reserved zero. -/
def encFlags (multicast : Bool) : Nat :=
  if multicast then 8192 else 0

/-- Encode one wire URL entry (spec §4.1). -/
def encUrlEntry (e : WireURLEntry) : List Nat :=
  0 :: (encU16 e.lifetime ++ (encStr e.url ++ [0]))

/-- Encode a message body (spec §4.1). -/
def encodeBody : SLPMessage → List Nat
  | SLPMessage.srvRqst _ prList serviceType scopeList predicate spi =>
      encStr prList ++ (encStr serviceType ++ (encStr scopeList ++
        (encStr predicate ++ encStr spi)))
  | SLPMessage.srvRply _ errorCode urls =>
      encU16 errorCode ++ (encU16 urls.length ++ (urls.map encUrlEntry).flatten)
  | SLPMessage.saAdvert _ url scopes attrs =>
      encStr url ++ (encStr scopes ++ (encStr attrs ++ [0]))

/-- Everything that follows the 5 bytes of version, function-ID and
length: flags, next-extension offset, XID, lang tag, then the body. -/
def encodeTail (m : SLPMessage) : List Nat :=
  encU16 (encFlags m.hdrOf.multicast) ++ ([0, 0, 0] ++
    (encU16 m.hdrOf.xid ++ (encStr m.hdrOf.lang ++ encodeBody m)))

/-- Modelled from the spec: the encoder.  The emitted length field is the
exact byte count of the message including the header (spec §4.1). -/
def encodeMessage (m : SLPMessage) : List Nat :=
  2 :: m.fnId :: (encU24 (5 + (encodeTail m).length) ++ encodeTail m)

/-- Decode a `SrvRqst` body: five u16-prefixed strings, consuming the
input exactly (spec §4.1). -/
def decodeSrvRqstBody (hdr : SLPHeader) (l : List Nat) : Option SLPMessage :=
  match readStr l with
  | none => none
  | some (prList, r1) =>
    match readStr r1 with
    | none => none
    | some (serviceType, r2) =>
      match readStr r2 with
      | none => none
      | some (scopeList, r3) =>
        match readStr r3 with
        | none => none
        | some (predicate, r4) =>
          match readStr r4 with
          | none => none
          | some (spi, r5) =>
            if r5 = [] then
              some (SLPMessage.srvRqst hdr prList serviceType scopeList
                predicate spi)
            else none

/-- Decode one wire URL entry (spec §4.1). -/
def readUrlEntry (l : List Nat) : Option (WireURLEntry × List Nat) :=
  match readByte l with
  | none => none
  | some (_, r1) =>
    match readU16 r1 with
    | none => none
    | some (lifetime, r2) =>
      match readStr r2 with
      | none => none
      | some (url, r3) =>
        match readByte r3 with
        | none => none
        | some (_, r4) => some ({ lifetime := lifetime, url := url }, r4)

/-- Decode `n` consecutive wire URL entries. -/
def readUrlEntries : Nat → List Nat → Option (List WireURLEntry × List Nat)
  | 0, l => some ([], l)
  | n + 1, l =>
    match readUrlEntry l with
    | none => none
    | some (e, r) =>
      match readUrlEntries n r with
      | none => none
      | some (es, r2) => some (e :: es, r2)

/-- Decode a `SrvRply` body: error code, URL count, then that many URL
entries, consuming the input exactly (spec §4.1). -/
def decodeSrvRplyBody (hdr : SLPHeader) (l : List Nat) : Option SLPMessage :=
  match readU16 l with
  | none => none
  | some (errorCode, r1) =>
    match readU16 r1 with
    | none => none
    | some (count, r2) =>
      match readUrlEntries count r2 with
      | none => none
      | some (urls, r3) =>
        if r3 = [] then some (SLPMessage.srvRply hdr errorCode urls)
        else none

/-- Decode a `SAAdvert` body: URL, scope list and attribute list strings,
then the auth-block count byte, consuming the input exactly (spec §4.1). -/
def decodeSAAdvertBody (hdr : SLPHeader) (l : List Nat) : Option SLPMessage :=
  match readStr l with
  | none => none
  | some (url, r1) =>
    match readStr r1 with
    | none => none
    | some (scopes, r2) =>
      match readStr r2 with
      | none => none
      | some (attrs, r3) =>
        match readByte r3 with
        | none => none
        | some (_, r4) =>
          if r4 = [] then some (SLPMessage.saAdvert hdr url scopes attrs)
          else none

/-- Dispatch a decoded header and body bytes on the function-ID; unknown
function-IDs decode to a discard, represented as `none` among the §4.1
message types (spec §4.1, §4.4). -/
def decodeBody (fid : Nat) (hdr : SLPHeader) (l : List Nat) :
    Option SLPMessage :=
  if fid = 1 then decodeSrvRqstBody hdr l
  else if fid = 2 then decodeSrvRplyBody hdr l
  else if fid = 11 then decodeSAAdvertBody hdr l
  else none

/-- Modelled from the spec: the decoder — rejects unknown versions,
truncation and length mismatches (spec §4.1). -/
def decodeMessage (bs : List Nat) : Option SLPMessage :=
  match bs with
  | v :: fid :: rest =>
    if v = 2 then
      match readU24 rest with
      | none => none
      | some (len, r1) =>
        if len = r1.length + 5 then
          match readU16 r1 with
          | none => none
          | some (flags, r2) =>
            match readU24 r2 with
            | none => none
            | some (_, r3) =>
              match readU16 r3 with
              | none => none
              | some (xid, r4) =>
                match readStr r4 with
                | none => none
                | some (lang, r5) =>
                  decodeBody fid
                    { multicast := flags / 8192 % 2 = 1, xid := xid,
                      lang := lang } r5
        else none
    else none
  | _ => none

/-- The length field of an encoded message: the u24 at offset 2. -/
def lengthField (bs : List Nat) : Option Nat :=
  (readU24 (bs.drop 2)).map (fun p => p.1)

/-- A well-formed string field: it fits its u16 length prefix and holds
bytes. -/
def wfStr (s : List Nat) : Bool :=
  s.length < 65536 && s.all (fun b => b < 256)

/-- A well-formed header: the XID fits u16 and the lang tag is a
well-formed string field. -/
def wfHeader (h : SLPHeader) : Bool :=
  h.xid < 65536 && wfStr h.lang

/-- A well-formed wire URL entry: lifetime fits u16 and the URL is a
well-formed string field. -/
def wfUrlEntry (e : WireURLEntry) : Bool :=
  e.lifetime < 65536 && wfStr e.url

/-- A well-formed message: every field fits its wire encoding and the
whole encoding fits the u24 length field. -/
def wfMessage (m : SLPMessage) : Bool :=
  (match m with
    | SLPMessage.srvRqst hdr prList serviceType scopeList predicate spi =>
        wfHeader hdr && wfStr prList && wfStr serviceType &&
          wfStr scopeList && wfStr predicate && wfStr spi
    | SLPMessage.srvRply hdr errorCode urls =>
        wfHeader hdr && (errorCode < 65536 && (urls.length < 65536 &&
          urls.all wfUrlEntry))
    | SLPMessage.saAdvert hdr url scopes attrs =>
        wfHeader hdr && wfStr url && wfStr scopes && wfStr attrs) &&
  (encodeMessage m).length < 16777216

/-! ### Fixtures from `SLPServerSATest.cpp` -/

/-- The SA of `testSrvRqst`: `CreateNewServer(false, "one")` at IP
`10.0.0.1`, port 5570 (`SLPServerSATest.cpp` lines 134-151, 206). -/
def cfg1 : SAConfig :=
  initConfig
    { enableDa := false, ipAddress := "10.0.0.1", initialXid := 0,
      scopes := ScopeSet.ofString "one", slpPort := 5570 }

/-- The service of `testSrvRqst`:
`ServiceEntry("one,two", "service:foo://localhost", 300)`
(`SLPServerSATest.cpp` line 209). -/
def svc : ServiceEntry :=
  { scopes := ScopeSet.ofString "one,two",
    url := { url := "service:foo://localhost", lifetime := 300 },
    registeredAt := 0 }

/-- The registry of `testSrvRqst` after the registration at line 210. -/
def reg1 : Registry := (registerService cfg1 [] svc).1

/-- The SA of `testSrvRqstForServiceAgent`:
`CreateNewServer(false, "one,two")` (`SLPServerSATest.cpp` line 316). -/
def cfg2 : SAConfig :=
  initConfig
    { enableDa := false, ipAddress := "10.0.0.1", initialXid := 0,
      scopes := ScopeSet.ofString "one,two", slpPort := 5570 }

/-- The startup options of `testMisconfiguredSA`:
`CreateNewServer(false, "")` (`SLPServerSATest.cpp` line 429). -/
def optsEmpty : SLPServerOptions :=
  { enableDa := false, ipAddress := "10.0.0.1", initialXid := 0,
    scopes := ScopeSet.ofString "", slpPort := 5570 }

/-- The SA of `testMisconfiguredSA`: `CreateNewServer(false, "")`
(`SLPServerSATest.cpp` line 429). -/
def cfg3 : SAConfig := initConfig optsEmpty

/-- The registry of `testSrvRqst` after the deregistration at line 293. -/
def regAfterDereg : Registry := (deRegisterService reg1 svc.url.url).1

/-- A concrete wire message: a `SrvRply` with error code 0, one URL entry
of lifetime 300, XID 10 and language tag `en`. -/
def msg0 : SLPMessage :=
  SLPMessage.srvRply { multicast := false, xid := 10, lang := [101, 110] } 0
    [{ lifetime := 300, url := [102, 111, 111] }]

/-! ## Helper lemmas -/

/-- Reading back an encoded u16 recovers the value. -/
theorem readU16_encU16 (n : Nat) (r : List Nat) :
    readU16 (encU16 n ++ r) = some (n, r) := by
  simp [readU16, encU16]
  omega

/-- Reading back an encoded u24 recovers the value. -/
theorem readU24_encU24 (n : Nat) (r : List Nat) :
    readU24 (encU24 n ++ r) = some (n, r) := by
  simp [readU24, encU24]
  omega

/-- Reading exactly the bytes of `s` off `s ++ r` yields `s` and `r`. -/
theorem readBytes_append (s r : List Nat) :
    readBytes s.length (s ++ r) = some (s, r) := by
  simp [readBytes, List.take_left, List.drop_left]

/-- Reading back an encoded string field recovers it. -/
theorem readStr_encStr (s r : List Nat) :
    readStr (encStr s ++ r) = some (s, r) := by
  simp [readStr, encStr, List.append_assoc, readU16_encU16, readBytes_append]

/-- Reading back an encoded string field at the end of the input. -/
theorem readStr_encStr_nil (s : List Nat) :
    readStr (encStr s) = some (s, []) := by
  simpa using readStr_encStr s []

/-- Reading back an encoded wire URL entry recovers it. -/
theorem readUrlEntry_enc (e : WireURLEntry) (r : List Nat) :
    readUrlEntry (encUrlEntry e ++ r) = some (e, r) := by
  simp [readUrlEntry, encUrlEntry, readByte, List.cons_append,
    List.append_assoc, readU16_encU16, readStr_encStr]

/-- Reading back a sequence of encoded wire URL entries recovers it. -/
theorem readUrlEntries_enc (es : List WireURLEntry) (r : List Nat) :
    readUrlEntries es.length ((es.map encUrlEntry).flatten ++ r) =
      some (es, r) := by
  induction es with
  | nil => simp [readUrlEntries]
  | cons e es ih =>
      simp [readUrlEntries, List.append_assoc, readUrlEntry_enc, ih]

/-- Decoding the flags field recovers the multicast bit. -/
theorem encFlags_decode (b : Bool) :
    decide (encFlags b / 8192 % 2 = 1) = b := by
  cases b <;> decide

/-- The byte count of an encoded message: 5 fixed bytes plus the tail. -/
theorem encodeMessage_length (m : SLPMessage) :
    (encodeMessage m).length = 5 + (encodeTail m).length := by
  simp [encodeMessage, encU24]
  omega

/-- Round trip of the `SrvRqst` body. -/
theorem decodeSrvRqstBody_enc (hdr : SLPHeader) (a b c d e : List Nat) :
    decodeSrvRqstBody hdr (encodeBody (SLPMessage.srvRqst hdr a b c d e)) =
      some (SLPMessage.srvRqst hdr a b c d e) := by
  simp [decodeSrvRqstBody, encodeBody, readStr_encStr, readStr_encStr_nil]

/-- Round trip of the `SrvRply` body. -/
theorem decodeSrvRplyBody_enc (hdr : SLPHeader) (errorCode : Nat)
    (urls : List WireURLEntry) :
    decodeSrvRplyBody hdr
        (encodeBody (SLPMessage.srvRply hdr errorCode urls)) =
      some (SLPMessage.srvRply hdr errorCode urls) := by
  simp [decodeSrvRplyBody, encodeBody, readU16_encU16,
    show readUrlEntries urls.length (List.map encUrlEntry urls).flatten =
        some (urls, []) from by simpa using readUrlEntries_enc urls []]

/-- Round trip of the `SAAdvert` body. -/
theorem decodeSAAdvertBody_enc (hdr : SLPHeader)
    (url scopes attrs : List Nat) :
    decodeSAAdvertBody hdr
        (encodeBody (SLPMessage.saAdvert hdr url scopes attrs)) =
      some (SLPMessage.saAdvert hdr url scopes attrs) := by
  simp [decodeSAAdvertBody, encodeBody, readStr_encStr, readByte]

/-- Reading three zero bytes as a u24. -/
theorem readU24_triple (x : List Nat) :
    readU24 ([0, 0, 0] ++ x) = some (0, x) := by
  simp [readU24]

/-- Full decoder/encoder round trip. -/
theorem decodeMessage_encodeMessage (m : SLPMessage) :
    decodeMessage (encodeMessage m) = some m := by
  have hbody : decodeBody m.fnId m.hdrOf (encodeBody m) = some m := by
    cases m with
    | srvRqst hdr a b c d e =>
        simpa [decodeBody, SLPMessage.fnId, SLPMessage.hdrOf] using
          decodeSrvRqstBody_enc hdr a b c d e
    | srvRply hdr errorCode urls =>
        simpa [decodeBody, SLPMessage.fnId, SLPMessage.hdrOf] using
          decodeSrvRplyBody_enc hdr errorCode urls
    | saAdvert hdr url scopes attrs =>
        simpa [decodeBody, SLPMessage.fnId, SLPMessage.hdrOf] using
          decodeSAAdvertBody_enc hdr url scopes attrs
  have htail : readU16 (encodeTail m) =
      some (encFlags m.hdrOf.multicast, [0, 0, 0] ++
        (encU16 m.hdrOf.xid ++ (encStr m.hdrOf.lang ++ encodeBody m))) := by
    simp [encodeTail, readU16_encU16]
  have e1 : encodeMessage m =
      2 :: m.fnId :: (encU24 (5 + (encodeTail m).length) ++ encodeTail m) :=
    rfl
  rw [e1]
  simp only [decodeMessage]
  rw [if_pos trivial]
  simp only [readU24_encU24]
  rw [if_pos (by omega :
    5 + (encodeTail m).length = (encodeTail m).length + 5)]
  simp only [htail, readU24_triple, readU16_encU16, readStr_encStr,
    encFlags_decode]
  exact hbody

/-! ## Claim theorems -/

/-- Claim C1 (corrected), counterexample: the claim says entries whose
scope set is not a subset of the SA scopes are rejected with
`SCOPE_NOT_SUPPORTED` and never held in the registry, but registering the
test service scoped `one,two` on the SA scoped `one` succeeds with
`SLP_OK` and the entry is held, exactly as `SLPServerSATest.cpp` lines
205-211 assert. -/
theorem register_scope_counterexample :
    ScopeSet.subsetOf svc.scopes cfg1.scopes = false ∧
    (registerService cfg1 [] svc).2 = SLP_OK ∧
    ¬(registerService cfg1 [] svc).2 = SCOPE_NOT_SUPPORTED ∧
    svc ∈ (registerService cfg1 [] svc).1 := by decide

/-- Claim C1 (amended): `RegisterService` performs no scope-subset check:
every entry with a well-formed service URL — in particular one whose
scopes are not a subset of the SA's configured scopes — is accepted with
`SLP_OK` and held in the registry. -/
theorem register_accepts (cfg : SAConfig) (reg : Registry)
    (e : ServiceEntry) (t : String)
    (hurl : parseServiceType e.url.url = some t) :
    (registerService cfg reg e).2 = SLP_OK ∧
    e ∈ (registerService cfg reg e).1 := by
  simp [registerService, hurl]

/-- Claim C1 witness: the amended theorem at the test registration. -/
theorem register_accepts_witness :
    (registerService cfg1 [] svc).2 = SLP_OK ∧
    svc ∈ (registerService cfg1 [] svc).1 :=
  register_accepts cfg1 [] svc "service:foo" (by decide)

/-- Claim C2 (corrected), counterexample: a unicast `service:service-agent`
request whose scopes are a subset of the SA's scopes but whose PR list
contains the SA's own address is dropped silently, where the claim as
stated demands an SAAdvert reply. -/
theorem saAdvert_pr_counterexample :
    handleSrvRqst cfg2 []
      { xid := 42, multicast := false, prList := ["10.0.0.1"],
        serviceType := "service:service-agent",
        scopes := ScopeSet.ofString "one" } = none ∧
    (ScopeSet.ofString "one").subsetOf cfg2.scopes = true := by decide

/-- Claim C2 (amended): for every `service:service-agent` SrvRqst whose PR
list does not contain the SA's own address: if the request scopes are
empty, a subset of the SA's scopes, or intersect them, the engine replies
with an SAAdvert carrying the self URL and the SA's full configured scope
set, unicast (`M=0`) even for a multicast request; otherwise a unicast
request gets `SrvRply(xid, SCOPE_NOT_SUPPORTED, [])` and a multicast
request is dropped. -/
theorem saAdvert_reply (cfg : SAConfig) (reg : Registry) (r : SrvRqstIn)
    (hpr : r.prList.contains cfg.ip = false)
    (hty : r.serviceType = "service:service-agent") :
    ((r.scopes.isEmptySet || r.scopes.subsetOf cfg.scopes ||
        r.scopes.intersects cfg.scopes) = true →
      handleSrvRqst cfg reg r =
        some (OutMsg.saAdvert r.xid false (selfUrl cfg) cfg.scopes)) ∧
    ((r.scopes.isEmptySet || r.scopes.subsetOf cfg.scopes ||
        r.scopes.intersects cfg.scopes) = false →
      handleSrvRqst cfg reg r =
        if r.multicast then none
        else some (OutMsg.srvRply r.xid SCOPE_NOT_SUPPORTED [])) := by
  constructor <;> intro h <;>
    (simp only [handleSrvRqst, hpr, hty, h]; simp)

/-- Claim C2 witness: the multicast SAAdvert scenario of
`testSrvRqstForServiceAgent`. -/
theorem saAdvert_reply_witness :
    handleSrvRqst cfg2 []
      { xid := 20, multicast := true, prList := [],
        serviceType := "service:service-agent",
        scopes := ScopeSet.ofString "one" } =
      some (OutMsg.saAdvert 20 false "service:service-agent://10.0.0.1"
        ["one", "two"]) :=
  Eq.trans
    ((saAdvert_reply cfg2 [] _ (by decide) (by decide)).1 (by decide))
    (by decide)

/-- Claim C3 (corrected), counterexample: a unicast general query with
matching scopes and a non-empty result set is dropped silently when the
PR list contains the SA's own address, where the claim as stated demands
`SrvRply(xid, SLP_OK, results)`. -/
theorem general_query_pr_counterexample :
    handleSrvRqst cfg1 reg1
      { xid := 45, multicast := false, prList := ["10.0.0.1"],
        serviceType := "service:foo", scopes := ScopeSet.ofString "one" } =
      none ∧
    reg1.find "service:foo" (ScopeSet.ofString "one") = [svc.url] := by
  decide

/-- Claim C3 (amended): for every general SrvRqst (service type neither
empty nor `service:service-agent`) whose PR list does not contain the
SA's address and whose scope check passes, the engine computes
`registry.find`, drops a multicast request with empty results, and
otherwise replies `SrvRply(xid, SLP_OK, results)`; and `find` returns
exactly the entries whose parsed service type equals the requested type
and whose scopes intersect the request scopes. -/
theorem general_query_reply (cfg : SAConfig) (reg : Registry)
    (r : SrvRqstIn) (hpr : r.prList.contains cfg.ip = false)
    (hty1 : r.serviceType ≠ "")
    (hty2 : r.serviceType ≠ "service:service-agent")
    (hne : r.scopes.isEmptySet = false)
    (hsub : r.scopes.subsetOf cfg.scopes = true) :
    handleSrvRqst cfg reg r =
      (if r.multicast && (reg.find r.serviceType r.scopes).isEmpty then none
       else some (OutMsg.srvRply r.xid SLP_OK
         (reg.find r.serviceType r.scopes))) ∧
    (∀ u, u ∈ reg.find r.serviceType r.scopes ↔
      ∃ e, e ∈ reg ∧ e.url = u ∧
        parseServiceType e.url.url = some r.serviceType ∧
        e.scopes.intersects r.scopes = true) := by
  constructor
  · simp only [handleSrvRqst, hpr, hne, hsub]
    simp [hty1, hty2]
  · intro u
    simp [Registry.find, List.mem_map, List.mem_filter, Bool.and_eq_true,
      beq_iff_eq]
    constructor
    · rintro ⟨e, ⟨he, h1, h2⟩, h3⟩
      exact ⟨e, he, h3, h1, h2⟩
    · rintro ⟨e, he, h3, h1, h2⟩
      exact ⟨e, ⟨he, h1, h2⟩, h3⟩

/-- Claim C3 witness: the multicast reply, and the unicast
`SrvRply(SLP_OK, [])` and multicast silence after deregistration, from
`testSrvRqst`. -/
theorem general_query_reply_witness :
    handleSrvRqst cfg1 reg1
      { xid := 10, multicast := true, prList := [],
        serviceType := "service:foo", scopes := ScopeSet.ofString "one" } =
      some (OutMsg.srvRply 10 SLP_OK [svc.url]) ∧
    handleSrvRqst cfg1 regAfterDereg
      { xid := 18, multicast := false, prList := [],
        serviceType := "service:foo", scopes := ScopeSet.ofString "one" } =
      some (OutMsg.srvRply 18 SLP_OK []) ∧
    handleSrvRqst cfg1 regAfterDereg
      { xid := 17, multicast := true, prList := [],
        serviceType := "service:foo", scopes := ScopeSet.ofString "one" } =
      none :=
  ⟨Eq.trans
      ((general_query_reply cfg1 reg1 _ (by decide) (by decide) (by decide)
        (by decide) (by decide)).1) (by decide),
    Eq.trans
      ((general_query_reply cfg1 regAfterDereg _ (by decide) (by decide)
        (by decide) (by decide) (by decide)).1) (by decide),
    Eq.trans
      ((general_query_reply cfg1 regAfterDereg _ (by decide) (by decide)
        (by decide) (by decide) (by decide)).1) (by decide)⟩

/-- Claim C4: any SrvRqst whose PR list contains the SA's own address is
dropped silently, regardless of the multicast flag, service type and
scopes. -/
theorem pr_list_suppression (cfg : SAConfig) (reg : Registry)
    (r : SrvRqstIn) (h : r.prList.contains cfg.ip = true) :
    handleSrvRqst cfg reg r = none := by
  have h2 : cfg.ip ∈ r.prList := by simpa using h
  simp [handleSrvRqst, h2]

/-- Claim C4 witness: the PR-list scenario of `testSrvRqst`. -/
theorem pr_list_suppression_witness :
    handleSrvRqst cfg1 reg1
      { xid := 12, multicast := true, prList := ["10.0.0.1"],
        serviceType := "service:foo", scopes := ScopeSet.ofString "one" } =
      none :=
  pr_list_suppression cfg1 reg1 _ (by decide)

/-- Claim C5 (corrected), counterexample: a unicast general query with
non-matching scopes is dropped silently when the PR list contains the
SA's own address, where the claim as stated demands
`SrvRply(xid, SCOPE_NOT_SUPPORTED, [])`. -/
theorem scope_mismatch_pr_counterexample :
    handleSrvRqst cfg1 reg1
      { xid := 44, multicast := false, prList := ["10.0.0.1"],
        serviceType := "service:foo", scopes := ScopeSet.ofString "two" } =
      none ∧
    (ScopeSet.ofString "two").subsetOf cfg1.scopes = false := by decide

/-- Claim C5 (amended): for every general SrvRqst (service type neither
empty nor `service:service-agent`) whose PR list does not contain the
SA's address, if the request scope set is empty or not a subset of the
SA's scopes, a unicast request gets
`SrvRply(xid, SCOPE_NOT_SUPPORTED, [])` and a multicast request is
dropped. -/
theorem scope_mismatch_reply (cfg : SAConfig) (reg : Registry)
    (r : SrvRqstIn) (hpr : r.prList.contains cfg.ip = false)
    (hty1 : r.serviceType ≠ "")
    (hty2 : r.serviceType ≠ "service:service-agent")
    (hsc : r.scopes.isEmptySet = true ∨
      r.scopes.subsetOf cfg.scopes = false) :
    handleSrvRqst cfg reg r =
      if r.multicast then none
      else some (OutMsg.srvRply r.xid SCOPE_NOT_SUPPORTED []) := by
  rcases hsc with h | h <;>
    (simp only [handleSrvRqst, hpr, h]; simp [hty1, hty2])

/-- Claim C5 witness: the unicast error reply and the multicast silence
for scope `two` in `testSrvRqst`. -/
theorem scope_mismatch_reply_witness :
    handleSrvRqst cfg1 reg1
      { xid := 14, multicast := false, prList := [],
        serviceType := "service:foo", scopes := ScopeSet.ofString "two" } =
      some (OutMsg.srvRply 14 SCOPE_NOT_SUPPORTED []) ∧
    handleSrvRqst cfg1 reg1
      { xid := 13, multicast := true, prList := [],
        serviceType := "service:foo", scopes := ScopeSet.ofString "two" } =
      none :=
  ⟨Eq.trans
      (scope_mismatch_reply cfg1 reg1 _ (by decide) (by decide) (by decide)
        (Or.inr (by decide)))
      (by decide),
    Eq.trans
      (scope_mismatch_reply cfg1 reg1 _ (by decide) (by decide) (by decide)
        (Or.inr (by decide)))
      (by decide)⟩

/-- Claim C6 (corrected), counterexample: a unicast SrvRqst with an empty
service type is dropped silently when the PR list contains the SA's own
address, where the claim as stated demands
`SrvRply(xid, PARSE_ERROR, [])`. -/
theorem empty_service_type_pr_counterexample :
    handleSrvRqst cfg1 []
      { xid := 43, multicast := false, prList := ["10.0.0.1"],
        serviceType := "", scopes := ScopeSet.ofString "one" } = none := by
  decide

/-- Claim C6 (amended): for every SrvRqst with an empty service type whose
PR list does not contain the SA's address, a unicast request gets
`SrvRply(xid, PARSE_ERROR, [])` and a multicast request is dropped. -/
theorem empty_service_type_reply (cfg : SAConfig) (reg : Registry)
    (r : SrvRqstIn) (hpr : r.prList.contains cfg.ip = false)
    (hty : r.serviceType = "") :
    handleSrvRqst cfg reg r =
      if r.multicast then none
      else some (OutMsg.srvRply r.xid PARSE_ERROR []) := by
  simp only [handleSrvRqst, hpr, hty]
  simp

/-- Claim C6 witness: the unicast scenario of `testMissingServiceType`. -/
theorem empty_service_type_reply_witness :
    handleSrvRqst cfg1 []
      { xid := 11, multicast := false, prList := [], serviceType := "",
        scopes := ScopeSet.ofString "one" } =
      some (OutMsg.srvRply 11 PARSE_ERROR []) :=
  Eq.trans
    (empty_service_type_reply cfg1 [] _ (by decide) (by decide))
    (by decide)

/-- Claim C7: an empty configured scope set is substituted by
`{"default"}`, the running scope set is never empty, and the
`testMisconfiguredSA` service-agent query is answered with an SAAdvert
whose scope list is exactly `default`. -/
theorem default_scope_substitution (opts : SLPServerOptions) :
    (opts.scopes.isEmptySet = true →
      (initConfig opts).scopes = ["default"]) ∧
    (initConfig opts).scopes ≠ [] ∧
    handleSrvRqst cfg3 []
      { xid := 10, multicast := false, prList := [],
        serviceType := "service:service-agent", scopes := [] } =
      some (OutMsg.saAdvert 10 false "service:service-agent://10.0.0.1"
        ["default"]) := by
  refine ⟨fun h => ?_, ?_, by decide⟩
  · simp [initConfig, h]
    decide
  · cases hs : opts.scopes.isEmptySet
    · have : opts.scopes ≠ [] := by
        cases h : opts.scopes
        · rw [h] at hs; simp [ScopeSet.isEmptySet] at hs
        · simp [h]
      simp [initConfig, hs, this]
    · simp [initConfig, hs]
      decide

/-- Claim C7 witness: the theorem at the empty-scope test options. -/
theorem default_scope_substitution_witness :
    (initConfig optsEmpty).scopes = ["default"] ∧
    (initConfig optsEmpty).scopes ≠ [] :=
  ⟨(default_scope_substitution optsEmpty).1 (by decide),
    (default_scope_substitution optsEmpty).2.1⟩

/-- Claim C8: every reply the engine produces carries the XID of the
request it answers; the engine never originates an XID of its own. -/
theorem xid_echoed (cfg : SAConfig) (reg : Registry) (r : SrvRqstIn)
    (m : OutMsg) (h : handleSrvRqst cfg reg r = some m) :
    m.xidOf = r.xid := by
  unfold handleSrvRqst at h
  split_ifs at h <;>
    first
      | exact Option.noConfusion h
      | (obtain rfl := (Option.some.inj h).symm; rfl)

/-- Claim C8 witness: the unicast `SrvRply` of `testSrvRqst` echoes
XID 11. -/
theorem xid_echoed_witness :
    (OutMsg.srvRply 11 SLP_OK [svc.url]).xidOf = 11 :=
  xid_echoed cfg1 reg1
    { xid := 11, multicast := false, prList := [],
      serviceType := "service:foo", scopes := ScopeSet.ofString "one" }
    (OutMsg.srvRply 11 SLP_OK [svc.url]) (by decide)

/-- Claim C9: for every well-formed message of the four §4.1 types,
decoding its encoding yields the message again, and the emitted length
field equals the exact byte count of the encoded message including the
header. -/
theorem codec_round_trip (m : SLPMessage) (h : wfMessage m = true) :
    decodeMessage (encodeMessage m) = some m ∧
    lengthField (encodeMessage m) = some ((encodeMessage m).length) := by
  refine ⟨decodeMessage_encodeMessage m, ?_⟩
  have hlf : lengthField (encodeMessage m) =
      some (5 + (encodeTail m).length) := by
    simp [lengthField, encodeMessage, readU24_encU24]
  rw [hlf, encodeMessage_length]

/-- Claim C9 witness: the round trip at a concrete `SrvRply`. -/
theorem codec_round_trip_witness :
    wfMessage msg0 = true ∧
    decodeMessage (encodeMessage msg0) = some msg0 ∧
    lengthField (encodeMessage msg0) = some ((encodeMessage msg0).length) :=
  ⟨by decide, codec_round_trip msg0 (by decide)⟩

/-- Claim C10: handling SrvRqsts mutates neither the registry nor the
configuration — running the event loop over any sequence of query events
returns the starting state, and each reply equals the handler applied to
the original state, so re-injecting a request (even with the same XID)
produces an identical reply. -/
theorem queries_preserve_state (s : SAState) (rs : List SrvRqstIn) :
    (runEvents s (rs.map SAEvent.request)).1 = s ∧
    (runEvents s (rs.map SAEvent.request)).2 =
      rs.map (fun r => handleSrvRqst s.cfg s.reg r) := by
  induction rs with
  | nil => simp [runEvents]
  | cons r rs ih =>
      simp [runEvents, stepEvent, ih.1, ih.2]

end OlaSlp
